import Mathlib

/-!
Verification of the telemetry ingestion & alerting pipeline of the PMS backend
(`src/server.js`).  The JavaScript source is shallowly embedded: JS values that
flow through the normalizer are modelled by `JsVal` (numbers as exact
rationals), Firestore timestamps and `Date.now()` by epoch milliseconds
(`Int`), the four process-wide caches by association lists keyed by device id,
and the asynchronous collaborators (the Firestore document write, the `users`
directory query, FCM sends) by an explicit environment record fixing their
outcomes for one invocation of `processDeviceData`.
-/

namespace PMS

/-- A JavaScript value, restricted to the shapes that flow through the
pipeline: numbers (modelled exactly as rationals), strings, `null`,
`undefined` and booleans. -/
inductive JsVal where
  | num (x : ℚ)
  | str (s : String)
  | jsNull
  | jsUndef
  | boolV (b : Bool)
deriving DecidableEq

/-- Whether a value is a JS number. -/
def JsVal.isNum : JsVal → Bool
  | .num _ => true
  | _ => false

/-- A property read on a JS object: `none` models an absent property
(which reads as `undefined`). -/
abbrev JsProp := Option JsVal

/-- Whether a property read yields a nullish value (`null`/`undefined`/absent),
the condition tested by the `??` operator. -/
def isNullish : JsProp → Bool
  | none => true
  | some .jsNull => true
  | some .jsUndef => true
  | some _ => false

/-- JS `a ?? d` for a property read `a`: the default is taken only for
`null`/`undefined`/absent; any other value — numeric or not — is kept
verbatim. -/
def coalesce (v : JsProp) (d : JsVal) : JsVal :=
  match v with
  | none => d
  | some .jsNull => d
  | some .jsUndef => d
  | some w => w

/-- Decimal-digit run parser backing the string case of `toNumber`. -/
def parseDigitsAux : List Char → Nat → Option Nat
  | [], acc => some acc
  | c :: cs, acc =>
    if c.isDigit then parseDigitsAux cs (acc * 10 + (c.toNat - 48)) else none

/-- JS numeric coercion (`Number(v)`), as far as the pipeline exercises it;
`none` stands for `NaN`.  Strings are covered for the integer-literal cases
(`""` → 0, `"42"` → 42, `"-3"` → -3); any other string is `NaN`, as
`Number()` yields on non-numeric input (fractional literals are out of the
model's scope — no claim involves them). -/
def toNumber : JsVal → Option ℚ
  | .num x => some x
  | .str s =>
    match s.data with
    | [] => some 0
    | '-' :: cs =>
      if cs.isEmpty then none else (parseDigitsAux cs 0).map fun n => ((-(n : Int) : Int) : ℚ)
    | cs => (parseDigitsAux cs 0).map fun n => ((n : Nat) : ℚ)
  | .jsNull => some 0
  | .jsUndef => none
  | .boolV b => some (if b then 1 else 0)

/-- Floor of the integer fraction `p / q` (for `q ≠ 0`), written with the
kernel-friendly Euclidean division on `Int`; `floorDiv_eq_floor` below proves
it equal to the mathematical `⌊p / q⌋`. -/
def floorDiv (p q : Int) : Int :=
  if q < 0 then (-p) / (-q) else p / q

/-- JS `Math.round`: round half toward positive infinity. -/
def jsRound (x : ℚ) : Int := ⌊x + 1 / 2⌋

/-- Executable form of `Math.round (x / y)` (for `y ≠ 0`), computed on the
numerators and denominators so that concrete runs reduce inside the kernel;
`jsRoundDiv_eq_round` below proves it equal to `jsRound (x / y)`. -/
def jsRoundDiv (x y : ℚ) : Int :=
  floorDiv (2 * x.num * (y.den : Int) + (x.den : Int) * y.num)
    (2 * (x.den : Int) * y.num)

/-- JS `x || d` for a number `x`: `0` (and only `0`, among numbers) is falsy. -/
def jsOrNum (x d : ℚ) : ℚ := if x = 0 then d else x

/-- JS `x || d` for an optional numeric field (absent reads as `undefined`,
which is falsy, and `0` is falsy). -/
def jsOrOpt (v : Option ℚ) (d : ℚ) : ℚ :=
  match v with
  | none => d
  | some x => if x = 0 then d else x

/-- JS truthiness of an optional string (the shapes `device_id` takes in the
claims): absent and `""` are falsy. -/
def strTruthy : Option String → Bool
  | none => false
  | some s => !(s == "")

/-- An inbound JSON payload (`data` / `req.body`), field by field as
`formatData` and `processDeviceData` read it.  `device_id` is kept as an
optional string (the claims only concern missing, empty or proper string
ids); every other recognized field is an arbitrary optional JS value. -/
structure Payload where
  device_id : Option String := none
  line1 : JsProp := none
  line2 : JsProp := none
  temperature : JsProp := none
  turbidity : JsProp := none
  ph : JsProp := none
  do_ : JsProp := none
  tds : JsProp := none
  relay1_status : JsProp := none
  relay2_status : JsProp := none
  timestamp : JsProp := none
deriving DecidableEq

/-- The normalized record built by `formatData` (src/server.js lines 51-63).
The `do` key is rendered `do_` (a Lean keyword); the Firestore timestamp is
epoch milliseconds. -/
structure FormattedReading where
  device_id : String
  line1 : JsVal
  line2 : JsVal
  temperature : JsVal
  turbidity : JsVal
  ph : JsVal
  do_ : JsVal
  tds : JsVal
  relay1_status : JsVal
  relay2_status : JsVal
  timestamp : Int
deriving DecidableEq

/-- src/server.js `formatData(device_id, payload, firestoreTimestamp)`:
each recognized field is `payload.f ?? 0`; the timestamp is
`firestoreTimestamp || Timestamp.now()` (a timestamp object is always truthy,
so the override wins exactly when supplied).  `now` models
`admin.firestore.Timestamp.now()`. -/
def formatData (device_id : String) (payload : Payload)
    (firestoreTimestamp : Option Int) (now : Int) : FormattedReading :=
  { device_id := device_id
    line1 := coalesce payload.line1 (.num 0)
    line2 := coalesce payload.line2 (.num 0)
    temperature := coalesce payload.temperature (.num 0)
    turbidity := coalesce payload.turbidity (.num 0)
    ph := coalesce payload.ph (.num 0)
    do_ := coalesce payload.do_ (.num 0)
    tds := coalesce payload.tds (.num 0)
    relay1_status := coalesce payload.relay1_status (.num 0)
    relay2_status := coalesce payload.relay2_status (.num 0)
    timestamp := firestoreTimestamp.getD now }

/-- A JS object used as a string-keyed map (the four module-level caches),
modelled as an association list; an update shadows earlier bindings, so
`storeGet` always sees the latest value for a key. -/
abbrev Store (α : Type) := List (String × α)

/-- Property read `m[k]`: `none` models `undefined`. -/
def storeGet {α : Type} (m : Store α) (k : String) : Option α :=
  (m.find? fun p => p.1 == k).map fun p => p.2

/-- Property write `m[k] = v`. -/
def storeSet {α : Type} (m : Store α) (k : String) (v : α) : Store α :=
  (k, v) :: m

/-- `liveDataCache` entry: `{ data, lastUpdated }`. -/
structure LiveEntry where
  data : FormattedReading
  lastUpdated : Int
deriving DecidableEq

/-- `alertStateCache` entry: `{ active, lastAlert }` (the recovery branch
stores `{ active: false }`, i.e. no `lastAlert` property). -/
structure AlertState where
  active : Bool
  lastAlert : Option Int := none
deriving DecidableEq

/-- A document of the Firestore `users` collection, restricted to the fields
the pipeline reads; numeric fields are optional rationals (absent reads as
`undefined`). -/
structure UserRecord where
  noAeratorsLine1 : Option ℚ := none
  noAeratorsLine2 : Option ℚ := none
  perAerator_currentLine1 : Option ℚ := none
  perAerator_currentLine2 : Option ℚ := none
  fcmToken : Option String := none
deriving DecidableEq

/-- `userSettingsCache` entry, as derived from the first matching user
document (src/server.js lines 121-126). -/
structure DeviceSettings where
  noAeratorsLine1 : ℚ
  noAeratorsLine2 : ℚ
  perAerator_currentLine1 : ℚ
  perAerator_currentLine2 : ℚ
deriving DecidableEq

/-- The four module-level in-memory caches (src/server.js lines 66-69). -/
structure Caches where
  liveDataCache : Store LiveEntry
  historyCache : Store (List FormattedReading)
  userSettingsCache : Store DeviceSettings
  alertStateCache : Store AlertState
deriving DecidableEq

/-- Caches at process start: all four maps empty. -/
def emptyCaches : Caches := ⟨[], [], [], []⟩

/-- Outcomes of the awaited collaborators during one `processDeviceData`
invocation: the clock, whether the Firestore document write succeeds, the
result of the `users.where("deviceId","==",id)` query (doc id paired with its
data), and the success of `admin.messaging().send` per FCM token. -/
structure Env where
  now : Int
  firestoreSetOk : Bool
  users : List (String × UserRecord)
  sendOk : String → Bool

/-- The object `processDeviceData` returns on the non-throwing path:
`{ formatted, alertSent, alertMsg, noAlertNeeded }`. -/
structure ProcResult where
  formatted : FormattedReading
  alertSent : Bool
  alertMsg : String
  noAlertNeeded : Bool
deriving DecidableEq

/-- Observable events of one invocation: whether the new-alert branch ran
(the `🚨` log + notification fan-out + state flip), whether the recovery log
fired, and which FCM tokens were attempted / succeeded. -/
structure Events where
  newAlert : Bool
  recovered : Bool
  pushAttempts : List String
  pushSuccesses : List String
deriving DecidableEq

/-- No observable event. -/
def noEvents : Events := ⟨false, false, [], []⟩

/-- Full outcome of one invocation: the returned object or the thrown error
message, the caches at exit, and the observable events. -/
structure ProcOutcome where
  result : Except String ProcResult
  caches : Caches
  events : Events

/-- `TWO_DAYS = 2 * 24 * 60 * 60 * 1000` (src/server.js line 14). -/
def TWO_DAYS : Int := 2 * 24 * 60 * 60 * 1000

/-- The live- and history-cache writes of `processDeviceData`
(src/server.js lines 91-103): replace the live entry, append to the history
window, then evict everything with `timestamp.toMillis() < Date.now() - TWO_DAYS`. -/
def cachePut (st : Caches) (device_id : String) (formatted : FormattedReading)
    (now : Int) : Caches :=
  let live := storeSet st.liveDataCache device_id ⟨formatted, now⟩
  let hist0 := (storeGet st.historyCache device_id).getD []
  let cutoff := now - TWO_DAYS
  let hist1 := (hist0 ++ [formatted]).filter fun item => decide (cutoff ≤ item.timestamp)
  { st with liveDataCache := live, historyCache := storeSet st.historyCache device_id hist1 }

/-- Settings derivation from the first matching user document
(src/server.js lines 120-126): `field || 0` for the bounds,
`field || 1` for the per-aerator currents. -/
def deriveSettings (firstUser : UserRecord) : DeviceSettings :=
  { noAeratorsLine1 := jsOrOpt firstUser.noAeratorsLine1 0
    noAeratorsLine2 := jsOrOpt firstUser.noAeratorsLine2 0
    perAerator_currentLine1 := jsOrOpt firstUser.perAerator_currentLine1 1
    perAerator_currentLine2 := jsOrOpt firstUser.perAerator_currentLine2 1 }

/-- The lazy settings lookup (src/server.js lines 112-130): the cached value
if present, otherwise derive from the first document of the `users` query and
cache it; an empty query result leaves the cache untouched and yields no
settings. -/
def resolveSettings (st : Caches) (device_id : String)
    (users : List (String × UserRecord)) : Option DeviceSettings × Caches :=
  match storeGet st.userSettingsCache device_id with
  | some deviceSettings => (some deviceSettings, st)
  | none =>
    match users with
    | [] => (none, st)
    | (_, firstUser) :: _ =>
      let deviceSettings := deriveSettings firstUser
      (some deviceSettings,
        { st with userSettingsCache := storeSet st.userSettingsCache device_id deviceSettings })

/-- `Math.round(formatted.lineN / (deviceSettings.perAerator_currentLineN || 1))`
(src/server.js lines 138-143); `none` is `NaN` (a non-numeric line value). -/
def ratioLine (line : JsVal) (perAerator : ℚ) : Option Int :=
  (toNumber line).map fun x => jsRoundDiv x (jsOrNum perAerator 1)

/-- `ratioN < (deviceSettings.noAeratorsLineN || 0)` — every comparison
against `NaN` is false in JS. -/
def lineLow (line : JsVal) (perAerator bound : ℚ) : Bool :=
  match ratioLine line perAerator with
  | none => false
  | some r => decide ((r : ℚ) < jsOrNum bound 0)

/-- String interpolation of a JS number that is an integer or `NaN`. -/
def numStr : Option Int → String
  | none => "NaN"
  | some r => toString r

/-- The alert message built at src/server.js lines 145-148 (`alertMsg` after
the two threshold checks; empty exactly when no line violates). -/
def evalAlertMsg (formatted : FormattedReading) (ds : DeviceSettings) : String :=
  let ratio1 := ratioLine formatted.line1 ds.perAerator_currentLine1
  let ratio2 := ratioLine formatted.line2 ds.perAerator_currentLine2
  let msg1 :=
    if lineLow formatted.line1 ds.perAerator_currentLine1 ds.noAeratorsLine1 then
      "Line1 aerators running = " ++ numStr ratio1 ++ ", expected ≥ " ++
        toString ds.noAeratorsLine1 ++ ". "
    else ""
  let msg2 :=
    if lineLow formatted.line2 ds.perAerator_currentLine2 ds.noAeratorsLine2 then
      "Line2 aerators running = " ++ numStr ratio2 ++ ", expected ≥ " ++
        toString ds.noAeratorsLine2 ++ "."
    else ""
  msg1 ++ msg2

/-- Accumulator of the FCM fan-out loop. -/
structure SendOutcome where
  attempted : List String
  succeeded : List String
  alertSent : Bool
deriving DecidableEq

/-- One iteration of `for (const doc of snapshot.docs)` (src/server.js lines
156-183): skip users without `fcmToken`; otherwise attempt the send, and on
success set `alertSent = true`; a failure is caught and logged, so the loop
continues either way. -/
def sendStep (sendOk : String → Bool) (acc : SendOutcome)
    (doc : String × UserRecord) : SendOutcome :=
  match doc.2.fcmToken with
  | none => acc
  | some token =>
    if sendOk token then
      ⟨acc.attempted ++ [token], acc.succeeded ++ [token], true⟩
    else
      ⟨acc.attempted ++ [token], acc.succeeded, acc.alertSent⟩

/-- The whole FCM fan-out loop over the `users` query result. -/
def sendAlerts (users : List (String × UserRecord)) (sendOk : String → Bool) :
    SendOutcome :=
  users.foldl (sendStep sendOk) ⟨[], [], false⟩

/-- The notification/alert-state section of `processDeviceData`
(src/server.js lines 150-197), entered once settings exist.  `alertMsg`
nonempty: if the device's alert state is inactive (or absent), fan out the
notifications and mark the state active with `lastAlert = Date.now()`;
if already active, do nothing.  `alertMsg` empty: log recovery when the state
was active, and store `{ active: false }` unconditionally. -/
def alertPhase (env : Env) (device_id : String) (formatted : FormattedReading)
    (st : Caches) (ds : DeviceSettings) : ProcOutcome :=
  let alertMsg := evalAlertMsg formatted ds
  if alertMsg ≠ "" then
    let deviceAlertState := (storeGet st.alertStateCache device_id).getD ⟨false, none⟩
    if deviceAlertState.active = false then
      let send := sendAlerts env.users env.sendOk
      let st' := { st with
        alertStateCache := storeSet st.alertStateCache device_id ⟨true, some env.now⟩ }
      ⟨.ok ⟨formatted, send.alertSent, alertMsg, false⟩, st',
        ⟨true, false, send.attempted, send.succeeded⟩⟩
    else
      ⟨.ok ⟨formatted, false, alertMsg, false⟩, st, noEvents⟩
  else
    let deviceAlertState := (storeGet st.alertStateCache device_id).getD ⟨false, none⟩
    let st' := { st with
      alertStateCache := storeSet st.alertStateCache device_id ⟨false, none⟩ }
    ⟨.ok ⟨formatted, false, "", true⟩, st',
      ⟨false, deviceAlertState.active, [], []⟩⟩

/-- The body of `processDeviceData` after validation and the awaited Firestore
write: cache the reading, resolve settings, and run the alert section (or
return directly when no settings could be resolved). -/
def processCore (env : Env) (device_id : String) (data : Payload)
    (st : Caches) : ProcOutcome :=
  let formatted := formatData device_id data none env.now
  let st1 := cachePut st device_id formatted env.now
  let rs := resolveSettings st1 device_id env.users
  match rs.1 with
  | none => ⟨.ok ⟨formatted, false, "", true⟩, rs.2, noEvents⟩
  | some ds => alertPhase env device_id formatted rs.2 ds

/-- src/server.js `processDeviceData(data, source)` (lines 82-201).
`if (!data.device_id) throw` rejects a missing or empty id before anything
else; the awaited Firestore `set` comes next (its failure propagates before
any cache is touched — `formatData` itself is pure); then `processCore`. -/
def processDeviceData (env : Env) (data : Payload) (st : Caches) : ProcOutcome :=
  if strTruthy data.device_id = false then
    ⟨.error "device_id required", st, noEvents⟩
  else
    let device_id := data.device_id.getD ""
    if env.firestoreSetOk = false then
      ⟨.error "firestore set failed", st, noEvents⟩
    else
      processCore env device_id data st

/-- The `GET /api/data/:deviceId` handler (src/server.js lines 391-404):
`400` when the id is falsy (first component `"error"`), `"no_data"` when the
cache entry is absent or `Date.now() - lastUpdated > 30000`, otherwise `"ok"`
with the cached reading. -/
def getLiveHandler (live : Store LiveEntry) (deviceId : String) (now : Int) :
    String × Option FormattedReading :=
  if deviceId = "" then ("error", none)
  else
    match storeGet live deviceId with
    | none => ("no_data", none)
    | some cacheEntry =>
      if now - cacheEntry.lastUpdated > 30000 then ("no_data", none)
      else ("ok", some cacheEntry.data)

/-- Every identifier in scope inside the `app.post("/api/data")` handler of
src/server.js (lines 237-263): the handler's own parameters `req`, `res` (it
destructures nothing from `req.body`) plus the module-level bindings of
src/server.js.  Notably `device_id` is NOT among them: no module-level
`device_id` exists, and unlike the variant in src/unnamed/part_000 this
handler never declares `const { device_id } = req.body`. -/
def apiDataHandlerScope : List String :=
  ["require", "express", "admin", "cors", "PORT", "TWO_DAYS", "serviceAccount",
   "firestore", "app", "getFormattedTimestamp", "log", "formatData",
   "liveDataCache", "historyCache", "userSettingsCache", "alertStateCache",
   "mqtt", "MQTT_BROKER", "MQTT_TOPIC", "mqttClient", "processDeviceData",
   "publishCommand", "responseControl", "req", "res"]

/-- The `app.post("/api/data")` handler (src/server.js lines 237-263).  Its
first statement evaluates `responseControl[device_id]?.code || 200`; reading
the identifier `device_id` when no binding named `device_id` is in scope
throws a `ReferenceError`, which the surrounding `try`/`catch` turns into a
`500` JSON error response — before `processDeviceData` is ever invoked.
Result: HTTP status, caches after the request, and whether `processDeviceData`
ran. -/
def apiDataPostHandler (env : Env) (body : Payload) (st : Caches) :
    Nat × Caches × Bool :=
  if "device_id" ∈ apiDataHandlerScope then
    -- would read `responseControl[device_id]` and proceed (unreachable branch:
    -- the membership test is false on the scope above)
    let out := processDeviceData env body st
    match out.result with
    | .ok _ => (200, out.caches, true)
    | .error _ => (500, out.caches, true)
  else
    (500, st, false)

/-! Concrete data for the scenario parts of the claims (the spec's own test
vectors: settings `{lowerBoundLine1: 2, unitsPerLine1: 1}`, violating reading
`line1 = 1`, recovering reading `line1 = 5`). -/

/-- One registered user for `dev1` carrying the spec's test settings. -/
def demoUsers : List (String × UserRecord) :=
  [("u1", { noAeratorsLine1 := some 2, noAeratorsLine2 := some 0,
            perAerator_currentLine1 := some 1, perAerator_currentLine2 := some 1,
            fcmToken := some "tok-good" })]

/-- Environment where every collaborator succeeds. -/
def demoEnv : Env :=
  { now := 500000, firestoreSetOk := true, users := demoUsers, sendOk := fun _ => true }

/-- A violating reading: `line1 = 1`, ratio `1 < 2`. -/
def violPayload : Payload := { device_id := some "dev1", line1 := some (.num 1) }

/-- A non-violating reading: `line1 = 5`, ratio `5 ≥ 2`. -/
def okPayload : Payload := { device_id := some "dev1", line1 := some (.num 5) }

/-- The settings the pipeline derives from `demoUsers`. -/
def demoSettings : DeviceSettings := ⟨2, 0, 1, 1⟩

/-- Caches with `dev1` settings cached and the `dev1` alert episode active. -/
def stActive : Caches :=
  { liveDataCache := [], historyCache := [],
    userSettingsCache := [("dev1", demoSettings)],
    alertStateCache := [("dev1", ⟨true, some 100⟩)] }

/-- First of three consecutive violating ingestions, from a fresh process. -/
def demoStep1 : ProcOutcome := processDeviceData demoEnv violPayload emptyCaches

/-- Second consecutive violating ingestion. -/
def demoStep2 : ProcOutcome := processDeviceData demoEnv violPayload demoStep1.caches

/-- Third consecutive violating ingestion. -/
def demoStep3 : ProcOutcome := processDeviceData demoEnv violPayload demoStep2.caches

/-- Environment whose Firestore document write fails. -/
def envNoStore : Env :=
  { now := 500000, firestoreSetOk := false, users := demoUsers, sendOk := fun _ => true }

/-- Payload carrying a caller-supplied timestamp (`123`). -/
def tsPayload : Payload := { device_id := some "dev1", timestamp := some (.num 123) }

/-- Environment whose server clock reads `999`. -/
def envC6 : Env := { now := 999, firestoreSetOk := true, users := [], sendOk := fun _ => false }

/-- Payload whose `line1` is the non-numeric string `"abc"`. -/
def badPayload : Payload := { device_id := some "dev1", line1 := some (.str "abc") }

/-- A concrete normalized reading (all fields zero). -/
def sampleReading : FormattedReading :=
  { device_id := "dev1", line1 := .num 0, line2 := .num 0, temperature := .num 0,
    turbidity := .num 0, ph := .num 0, do_ := .num 0, tds := .num 0,
    relay1_status := .num 0, relay2_status := .num 0, timestamp := 0 }

/-- Live cache holding a `dev1` entry last updated at instant `0`. -/
def live29 : Store LiveEntry := [("dev1", ⟨sampleReading, 0⟩)]

/-- A reading whose timestamp (`5`) is far older than the retention window. -/
def oldReading : FormattedReading := { sampleReading with timestamp := 5 }

/-- Environment clocked well past the retention window of `oldReading`. -/
def env9 : Env :=
  { now := TWO_DAYS + 50000, firestoreSetOk := true, users := [], sendOk := fun _ => false }

/-- Caches whose `dev1` history still holds `oldReading`. -/
def st9 : Caches := { emptyCaches with historyCache := [("dev1", [oldReading])] }

/-- A minimal valid payload for `dev1`. -/
def payload9 : Payload := { device_id := some "dev1" }

/-- Two recipients: the first with an invalid push token, the second valid. -/
def mixedUsers : List (String × UserRecord) :=
  [("u1", { fcmToken := some "tok-bad" }), ("u2", { fcmToken := some "tok-good" })]

/-- Send outcome map where only `"tok-bad"` fails. -/
def mixedSendOk : String → Bool := fun t => !(t == "tok-bad")

/-- Environment with the two `mixedUsers` recipients registered. -/
def mixedEnv : Env :=
  { now := 500000, firestoreSetOk := true, users := mixedUsers, sendOk := mixedSendOk }

/-- Caches with `dev1` settings cached and no alert state yet. -/
def stInactive : Caches :=
  { liveDataCache := [], historyCache := [],
    userSettingsCache := [("dev1", demoSettings)], alertStateCache := [] }

/-- A payload that carries sensor data but no `device_id`. -/
def noIdPayload : Payload := { device_id := none, line1 := some (.num 1) }

/-! ### Faithfulness of the executable arithmetic -/

/-- `floorDiv` computes the mathematical floor of the fraction `p / q`. -/
theorem floorDiv_eq_floor (p q : Int) (hq : q ≠ 0) :
    floorDiv p q = ⌊(p : ℚ) / (q : ℚ)⌋ := by
  have key : ∀ (a : Int) (d : ℕ), floorDiv a (d : Int) = ⌊(a : ℚ) / ((d : ℕ) : ℚ)⌋ := by
    intro a d
    unfold floorDiv
    rw [if_neg (by omega)]
    exact (Rat.floor_intCast_div_natCast a d).symm
  rcases lt_or_gt_of_ne hq with hneg | hpos
  · obtain ⟨d, rfl⟩ : ∃ d : ℕ, q = -(d : Int) := ⟨(-q).toNat, by omega⟩
    have h1 : floorDiv p (-(d : Int)) = floorDiv (-p) (d : Int) := by
      unfold floorDiv
      rw [if_pos hneg, if_neg (by omega)]
      simp
    rw [h1, key (-p) d]
    congr 1
    push_cast
    rw [div_neg, neg_div]
  · obtain ⟨d, rfl⟩ : ∃ d : ℕ, q = (d : Int) := ⟨q.toNat, by omega⟩
    exact key p d

/-- `jsOrNum x 1` is never zero (the `|| 1` guard in the evaluator). -/
theorem jsOrNum_one_ne_zero (x : ℚ) : jsOrNum x 1 ≠ 0 := by
  unfold jsOrNum
  split
  · norm_num
  · assumption

/-- The executable `jsRoundDiv` agrees with `Math.round (x / y)`. -/
theorem jsRoundDiv_eq_round (x y : ℚ) (hy : y ≠ 0) :
    jsRoundDiv x y = jsRound (x / y) := by
  have hyn : (y.num : ℚ) ≠ 0 := by
    exact_mod_cast Rat.num_ne_zero.mpr hy
  have hxd : ((x.den : ℕ) : ℚ) ≠ 0 := by
    exact_mod_cast x.den_nz
  have hyd : ((y.den : ℕ) : ℚ) ≠ 0 := by
    exact_mod_cast y.den_nz
  have hq : (2 * (x.den : Int) * y.num) ≠ 0 := by
    refine mul_ne_zero (mul_ne_zero (by norm_num) ?_) (Rat.num_ne_zero.mpr hy)
    exact_mod_cast x.den_nz
  unfold jsRoundDiv jsRound
  rw [floorDiv_eq_floor _ _ hq]
  congr 1
  have hx' : ((x.num : ℚ)) / ((x.den : ℕ) : ℚ) = x := Rat.num_div_den x
  have hy' : ((y.num : ℚ)) / ((y.den : ℕ) : ℚ) = y := Rat.num_div_den y
  conv_rhs => rw [← hx', ← hy']
  push_cast
  field_simp
  ring

/-- `ratioLine` is `Math.round (toNumber line / (per || 1))`, mapped over the
possible `NaN`. -/
theorem ratioLine_eq_round (line : JsVal) (per : ℚ) :
    ratioLine line per = (toNumber line).map fun x => jsRound (x / jsOrNum per 1) := by
  unfold ratioLine
  cases toNumber line with
  | none => rfl
  | some x =>
    simp [jsRoundDiv_eq_round x (jsOrNum per 1) (jsOrNum_one_ne_zero per)]

/-! ### Store laws -/

/-- Reading back the key just written. -/
theorem storeGet_storeSet_same {α : Type} (m : Store α) (k : String) (v : α) :
    storeGet (storeSet m k v) k = some v := by
  simp [storeGet, storeSet, List.find?]

/-- `coalesce` in spec form: default on nullish reads, verbatim otherwise. -/
theorem coalesce_eq (v : JsProp) (d : JsVal) :
    coalesce v d = if isNullish v = true then d else v.getD d := by
  cases v with
  | none => rfl
  | some w => cases w <;> rfl

/-! ### Structure of one `processDeviceData` invocation -/

/-- With a truthy `device_id` and a successful Firestore write, the invocation
is `processCore`. -/
theorem processDeviceData_valid (env : Env) (data : Payload) (st : Caches)
    (id : String) (hid : data.device_id = some id) (hne : id ≠ "")
    (hfs : env.firestoreSetOk = true) :
    processDeviceData env data st = processCore env id data st := by
  unfold processDeviceData
  rw [hid]
  simp [strTruthy, hne, hfs]

/-- `cachePut` only touches the live and history caches. -/
theorem cachePut_userSettings (st : Caches) (id : String) (f : FormattedReading)
    (now : Int) : (cachePut st id f now).userSettingsCache = st.userSettingsCache := rfl

/-- `cachePut` only touches the live and history caches. -/
theorem cachePut_alertState (st : Caches) (id : String) (f : FormattedReading)
    (now : Int) : (cachePut st id f now).alertStateCache = st.alertStateCache := rfl

/-- The history window stored by `cachePut` for the written device. -/
theorem cachePut_history_get (st : Caches) (id : String) (f : FormattedReading)
    (now : Int) :
    storeGet (cachePut st id f now).historyCache id =
      some (((storeGet st.historyCache id).getD [] ++ [f]).filter fun item =>
        decide (now - TWO_DAYS ≤ item.timestamp)) := by
  unfold cachePut
  exact storeGet_storeSet_same _ _ _

/-- The settings lookup is a no-op when the cache already holds an entry. -/
theorem resolveSettings_cached (st : Caches) (id : String)
    (users : List (String × UserRecord)) (ds : DeviceSettings)
    (h : storeGet st.userSettingsCache id = some ds) :
    resolveSettings st id users = (some ds, st) := by
  unfold resolveSettings
  rw [h]

/-- The settings lookup never touches the history cache. -/
theorem resolveSettings_history (st : Caches) (id : String)
    (users : List (String × UserRecord)) :
    (resolveSettings st id users).2.historyCache = st.historyCache := by
  unfold resolveSettings
  cases storeGet st.userSettingsCache id with
  | some ds => rfl
  | none =>
    cases users with
    | nil => rfl
    | cons u rest => rfl

/-- The settings lookup never touches the live cache. -/
theorem resolveSettings_live (st : Caches) (id : String)
    (users : List (String × UserRecord)) :
    (resolveSettings st id users).2.liveDataCache = st.liveDataCache := by
  unfold resolveSettings
  cases storeGet st.userSettingsCache id with
  | some ds => rfl
  | none =>
    cases users with
    | nil => rfl
    | cons u rest => rfl

/-- The settings lookup never touches the alert-state cache. -/
theorem resolveSettings_alert (st : Caches) (id : String)
    (users : List (String × UserRecord)) :
    (resolveSettings st id users).2.alertStateCache = st.alertStateCache := by
  unfold resolveSettings
  cases storeGet st.userSettingsCache id with
  | some ds => rfl
  | none =>
    cases users with
    | nil => rfl
    | cons u rest => rfl

/-- New-alert branch: inactive (or absent) state plus a nonempty alert message
fans out the notifications and activates the state. -/
theorem alertPhase_newAlert (env : Env) (id : String) (f : FormattedReading)
    (st : Caches) (ds : DeviceSettings)
    (hmsg : evalAlertMsg f ds ≠ "")
    (hstate : ((storeGet st.alertStateCache id).getD ⟨false, none⟩).active = false) :
    alertPhase env id f st ds =
      ⟨.ok ⟨f, (sendAlerts env.users env.sendOk).alertSent, evalAlertMsg f ds, false⟩,
        { st with alertStateCache := storeSet st.alertStateCache id ⟨true, some env.now⟩ },
        ⟨true, false, (sendAlerts env.users env.sendOk).attempted,
          (sendAlerts env.users env.sendOk).succeeded⟩⟩ := by
  simp only [alertPhase]
  rw [if_pos hmsg, if_pos hstate]

/-- Suppression branch: an active state plus a nonempty alert message is a
no-op apart from the returned message. -/
theorem alertPhase_suppressed (env : Env) (id : String) (f : FormattedReading)
    (st : Caches) (ds : DeviceSettings)
    (hmsg : evalAlertMsg f ds ≠ "")
    (hstate : ((storeGet st.alertStateCache id).getD ⟨false, none⟩).active = true) :
    alertPhase env id f st ds =
      ⟨.ok ⟨f, false, evalAlertMsg f ds, false⟩, st, noEvents⟩ := by
  simp only [alertPhase]
  rw [if_pos hmsg, if_neg (by simp [hstate])]

/-- No-violation branch: log recovery iff the state was active, and store
`{ active: false }`. -/
theorem alertPhase_noViolation (env : Env) (id : String) (f : FormattedReading)
    (st : Caches) (ds : DeviceSettings)
    (hmsg : evalAlertMsg f ds = "") :
    alertPhase env id f st ds =
      ⟨.ok ⟨f, false, "", true⟩,
        { st with alertStateCache := storeSet st.alertStateCache id ⟨false, none⟩ },
        ⟨false, ((storeGet st.alertStateCache id).getD ⟨false, none⟩).active, [], []⟩⟩ := by
  simp only [alertPhase]
  rw [if_neg (by simp [hmsg])]

/-- The alert section never touches the history cache. -/
theorem alertPhase_history (env : Env) (id : String) (f : FormattedReading)
    (st : Caches) (ds : DeviceSettings) :
    (alertPhase env id f st ds).caches.historyCache = st.historyCache := by
  by_cases h : evalAlertMsg f ds = ""
  · rw [alertPhase_noViolation env id f st ds h]
  · cases hb : ((storeGet st.alertStateCache id).getD ⟨false, none⟩).active
    · rw [alertPhase_newAlert env id f st ds h hb]
    · rw [alertPhase_suppressed env id f st ds h hb]

/-- The alert section never touches the settings cache. -/
theorem alertPhase_userSettings (env : Env) (id : String) (f : FormattedReading)
    (st : Caches) (ds : DeviceSettings) :
    (alertPhase env id f st ds).caches.userSettingsCache = st.userSettingsCache := by
  by_cases h : evalAlertMsg f ds = ""
  · rw [alertPhase_noViolation env id f st ds h]
  · cases hb : ((storeGet st.alertStateCache id).getD ⟨false, none⟩).active
    · rw [alertPhase_newAlert env id f st ds h hb]
    · rw [alertPhase_suppressed env id f st ds h hb]

/-- The alert section always returns the formatted reading it was given. -/
theorem alertPhase_formatted (env : Env) (id : String) (f : FormattedReading)
    (st : Caches) (ds : DeviceSettings) :
    (alertPhase env id f st ds).result.toOption.map (fun r => r.formatted) = some f := by
  by_cases h : evalAlertMsg f ds = ""
  · rw [alertPhase_noViolation env id f st ds h]; rfl
  · cases hb : ((storeGet st.alertStateCache id).getD ⟨false, none⟩).active
    · rw [alertPhase_newAlert env id f st ds h hb]; rfl
    · rw [alertPhase_suppressed env id f st ds h hb]; rfl

/-- With cached settings, `processCore` is `cachePut` followed by the alert
section. -/
theorem processCore_cached (env : Env) (id : String) (data : Payload)
    (st : Caches) (ds : DeviceSettings)
    (hset : storeGet st.userSettingsCache id = some ds) :
    processCore env id data st =
      alertPhase env id (formatData id data none env.now)
        (cachePut st id (formatData id data none env.now) env.now) ds := by
  simp only [processCore]
  rw [resolveSettings_cached (cachePut st id (formatData id data none env.now) env.now)
    id env.users ds hset]

/-- After `processCore`, the device's history window is exactly the freshly
filtered window written by `cachePut`. -/
theorem processCore_history (env : Env) (id : String) (data : Payload)
    (st : Caches) :
    (processCore env id data st).caches.historyCache =
      (cachePut st id (formatData id data none env.now) env.now).historyCache := by
  simp only [processCore]
  cases hrs : (resolveSettings (cachePut st id (formatData id data none env.now) env.now)
      id env.users).1 with
  | none => rw [resolveSettings_history]
  | some ds => rw [alertPhase_history, resolveSettings_history]

/-- `processCore` always returns the formatted reading of its input. -/
theorem processCore_formatted (env : Env) (id : String) (data : Payload)
    (st : Caches) :
    (processCore env id data st).result.toOption.map (fun r => r.formatted) =
      some (formatData id data none env.now) := by
  simp only [processCore]
  cases hrs : (resolveSettings (cachePut st id (formatData id data none env.now) env.now)
      id env.users).1 with
  | none => rfl
  | some ds => rw [alertPhase_formatted]

/-- Closed form of the FCM fan-out fold: tokens are attempted in recipient
order whatever the individual outcomes, the successes are the filter by the
send outcome, and `alertSent` is the disjunction of the outcomes. -/
theorem foldl_sendStep (sendOk : String → Bool) (users : List (String × UserRecord))
    (acc : SendOutcome) :
    users.foldl (sendStep sendOk) acc =
      ⟨acc.attempted ++ users.filterMap (fun d => d.2.fcmToken),
        acc.succeeded ++ (users.filterMap (fun d => d.2.fcmToken)).filter sendOk,
        acc.alertSent || (users.filterMap (fun d => d.2.fcmToken)).any sendOk⟩ := by
  induction users generalizing acc with
  | nil => simp
  | cons u rest ih =>
    obtain ⟨uid, urec⟩ := u
    cases h : urec.fcmToken with
    | none => simp [sendStep, h, ih]
    | some t =>
      by_cases hs : sendOk t = true
      · simp [sendStep, h, hs, ih, List.filter_cons, List.append_assoc]
      · simp [sendStep, h, hs, ih, List.filter_cons, List.append_assoc]

/-- From an inactive (or absent) alert state, a violating reading with cached
settings fires the new-alert branch: the fan-out runs and the state becomes
active with `lastAlert = now`. -/
theorem newAlert_fires (env : Env) (data : Payload) (st : Caches) (id : String)
    (ds : DeviceSettings)
    (hid : data.device_id = some id) (hne : id ≠ "") (hfs : env.firestoreSetOk = true)
    (hset : storeGet st.userSettingsCache id = some ds)
    (hinact : ((storeGet st.alertStateCache id).getD ⟨false, none⟩).active = false)
    (hviol : evalAlertMsg (formatData id data none env.now) ds ≠ "") :
    (processDeviceData env data st).events.newAlert = true ∧
    (processDeviceData env data st).events.pushAttempts =
      (sendAlerts env.users env.sendOk).attempted ∧
    storeGet (processDeviceData env data st).caches.alertStateCache id =
      some ⟨true, some env.now⟩ := by
  rw [processDeviceData_valid env data st id hid hne hfs,
    processCore_cached env id data st ds hset]
  rw [alertPhase_newAlert env id (formatData id data none env.now)
    (cachePut st id (formatData id data none env.now) env.now) ds hviol hinact]
  exact ⟨rfl, rfl, storeGet_storeSet_same _ _ _⟩

/-! ### The claims -/

/-- C1: while a device's alert state is active, processing a further reading
whose evaluation still reports a violation fires no new-alert event and sends
no notifications (no events at all, `alertSent = false`, alert state entry
unchanged); and feeding three consecutive violating readings (`line1 = 1`
against settings `{lowerBoundLine1: 2, unitsPerLine1: 1}`) from a fresh
process produces exactly one new-alert event, not three. -/
theorem active_alert_suppresses_renotification :
    (∀ (env : Env) (data : Payload) (st : Caches) (id : String)
        (ds : DeviceSettings) (a0 : AlertState),
      data.device_id = some id → id ≠ "" → env.firestoreSetOk = true →
      storeGet st.userSettingsCache id = some ds →
      storeGet st.alertStateCache id = some a0 → a0.active = true →
      evalAlertMsg (formatData id data none env.now) ds ≠ "" →
      (processDeviceData env data st).events = noEvents ∧
      (processDeviceData env data st).result =
        .ok ⟨formatData id data none env.now, false,
          evalAlertMsg (formatData id data none env.now) ds, false⟩ ∧
      storeGet (processDeviceData env data st).caches.alertStateCache id = some a0) ∧
    ((if demoStep1.events.newAlert then 1 else 0) +
      (if demoStep2.events.newAlert then 1 else 0) +
      (if demoStep3.events.newAlert then 1 else 0) = 1) := by
  constructor
  · intro env data st id ds a0 hid hne hfs hset hstate hact hviol
    rw [processDeviceData_valid env data st id hid hne hfs,
      processCore_cached env id data st ds hset]
    have hstate' : ((storeGet (cachePut st id (formatData id data none env.now)
        env.now).alertStateCache id).getD ⟨false, none⟩).active = true := by
      rw [cachePut_alertState, hstate]
      exact hact
    rw [alertPhase_suppressed env id (formatData id data none env.now)
      (cachePut st id (formatData id data none env.now) env.now) ds hviol hstate']
    refine ⟨rfl, rfl, ?_⟩
    rw [show (cachePut st id (formatData id data none env.now) env.now).alertStateCache =
      st.alertStateCache from rfl]
    exact hstate
  · decide

/-- C1 witness: a concrete violating reading against an active `dev1` state
produces no events and leaves the alert entry untouched. -/
theorem active_alert_suppresses_renotification_witness :
    (processDeviceData demoEnv violPayload stActive).events = noEvents ∧
    storeGet (processDeviceData demoEnv violPayload stActive).caches.alertStateCache
      "dev1" = some ⟨true, some 100⟩ := by
  have h := active_alert_suppresses_renotification.1 demoEnv violPayload stActive
    "dev1" demoSettings ⟨true, some 100⟩ rfl (by decide) rfl rfl rfl rfl (by decide)
  exact ⟨h.1, h.2.2⟩

/-- C2: for a device with cached settings and an active alert state, one
reading whose evaluation reports no violation fires the recovered event (and
no new-alert, no notifications) and resets the state to inactive, so that any
subsequent violating reading fires a fresh new-alert event. -/
theorem recovery_fires_once_and_resets :
    ∀ (env : Env) (data : Payload) (st : Caches) (id : String)
      (ds : DeviceSettings) (a0 : AlertState),
      data.device_id = some id → id ≠ "" → env.firestoreSetOk = true →
      storeGet st.userSettingsCache id = some ds →
      storeGet st.alertStateCache id = some a0 → a0.active = true →
      evalAlertMsg (formatData id data none env.now) ds = "" →
      (processDeviceData env data st).events.recovered = true ∧
      (processDeviceData env data st).events.newAlert = false ∧
      (processDeviceData env data st).events.pushAttempts = [] ∧
      storeGet (processDeviceData env data st).caches.alertStateCache id =
        some ⟨false, none⟩ ∧
      (∀ (env2 : Env) (data2 : Payload),
        data2.device_id = some id → env2.firestoreSetOk = true →
        evalAlertMsg (formatData id data2 none env2.now) ds ≠ "" →
        (processDeviceData env2 data2
          (processDeviceData env data st).caches).events.newAlert = true) := by
  intro env data st id ds a0 hid hne hfs hset hstate hact hnov
  rw [processDeviceData_valid env data st id hid hne hfs,
    processCore_cached env id data st ds hset]
  rw [alertPhase_noViolation env id (formatData id data none env.now)
    (cachePut st id (formatData id data none env.now) env.now) ds hnov]
  refine ⟨?_, rfl, rfl, ?_, ?_⟩
  · show ((storeGet (cachePut st id (formatData id data none env.now)
      env.now).alertStateCache id).getD ⟨false, none⟩).active = true
    rw [cachePut_alertState, hstate]
    exact hact
  · exact storeGet_storeSet_same _ _ _
  · intro env2 data2 hid2 hfs2 hviol2
    refine (newAlert_fires env2 data2 ?_ id ds hid2 hne hfs2 ?_ ?_ hviol2).1
    · exact hset
    · show ((storeGet (storeSet (cachePut st id (formatData id data none env.now)
          env.now).alertStateCache id ⟨false, none⟩) id).getD ⟨false, none⟩).active = false
      rw [storeGet_storeSet_same]
      rfl

/-- C2 witness: `line1 = 5` against active `dev1` fires recovery and resets;
a following `line1 = 1` fires a fresh new-alert. -/
theorem recovery_fires_once_and_resets_witness :
    (processDeviceData demoEnv okPayload stActive).events.recovered = true ∧
    storeGet (processDeviceData demoEnv okPayload stActive).caches.alertStateCache
      "dev1" = some ⟨false, none⟩ ∧
    (processDeviceData demoEnv violPayload
      (processDeviceData demoEnv okPayload stActive).caches).events.newAlert = true := by
  have h := recovery_fires_once_and_resets demoEnv okPayload stActive "dev1"
    demoSettings ⟨true, some 100⟩ rfl (by decide) rfl rfl rfl rfl (by decide)
  exact ⟨h.1, h.2.2.2.1, h.2.2.2.2 demoEnv violPayload rfl rfl (by decide)⟩

/-- C3: a payload whose `device_id` is missing or empty is rejected with the
validation error; all four caches are exactly as they were and no alert
evaluation, event or notification happens. -/
theorem missing_device_id_rejects_without_mutation (env : Env) (data : Payload)
    (st : Caches) (h : data.device_id = none ∨ data.device_id = some "") :
    processDeviceData env data st = ⟨.error "device_id required", st, noEvents⟩ := by
  have hfalse : strTruthy data.device_id = false := by
    rcases h with h | h <;> rw [h] <;> rfl
  unfold processDeviceData
  rw [if_pos hfalse]

/-- C3 witness: the rejected ingestion leaves a nonempty cache state intact. -/
theorem missing_device_id_rejects_without_mutation_witness :
    processDeviceData demoEnv noIdPayload stActive =
      ⟨.error "device_id required", stActive, noEvents⟩ :=
  missing_device_id_rejects_without_mutation demoEnv noIdPayload stActive (Or.inl rfl)

/-- C4 counterexample: when the durable-store write fails, ingestion throws
and the reading is NOT stored in the live cache or the history cache — both
lookups come back empty, refuting the claim that the in-memory caches still
receive the reading. -/
theorem durable_failure_reading_not_cached :
    (processDeviceData envNoStore violPayload emptyCaches).result.toOption = none ∧
    storeGet (processDeviceData envNoStore violPayload
      emptyCaches).caches.liveDataCache "dev1" = none ∧
    storeGet (processDeviceData envNoStore violPayload
      emptyCaches).caches.historyCache "dev1" = none := by
  decide

/-- C4 (amended): if the durable-store write fails during ingestion of a valid
reading, the error propagates to the caller and NO cache is mutated — the
in-memory caches are written only after the awaited Firestore write succeeds,
so live and history reads do not see the new reading. -/
theorem durable_failure_leaves_caches_unchanged (env : Env) (data : Payload)
    (st : Caches) (hfs : env.firestoreSetOk = false)
    (hid : strTruthy data.device_id = true) :
    processDeviceData env data st = ⟨.error "firestore set failed", st, noEvents⟩ := by
  simp [processDeviceData, hid, hfs]

/-- C4 witness: concrete failing write leaves the caches exactly as before. -/
theorem durable_failure_leaves_caches_unchanged_witness :
    processDeviceData envNoStore violPayload stActive =
      ⟨.error "firestore set failed", stActive, noEvents⟩ :=
  durable_failure_leaves_caches_unchanged envNoStore violPayload stActive rfl rfl

/-- C5: the `POST /api/data` handler of src/server.js evaluates
`responseControl[device_id]` with `device_id` not bound anywhere in scope, so
every request throws a ReferenceError inside the `try`, is answered with
status 500 and an error body, never invokes `processDeviceData`, and never
mutates any cache. -/
theorem api_data_post_always_500 :
    "device_id" ∉ apiDataHandlerScope ∧
    ∀ (env : Env) (body : Payload) (st : Caches),
      apiDataPostHandler env body st = (500, st, false) := by
  refine ⟨by decide, ?_⟩
  intro env body st
  unfold apiDataPostHandler
  rw [if_neg (by decide)]

/-- C6 counterexample: a caller-supplied timestamp (`123`) is not preserved:
the normalized reading carries the server instant (`999`) instead. -/
theorem supplied_timestamp_not_preserved :
    tsPayload.timestamp = some (.num 123) ∧
    ((processDeviceData envC6 tsPayload emptyCaches).result.toOption.map
      fun r => r.formatted.timestamp) = some 999 ∧
    (999 : Int) ≠ 123 := by
  decide

/-- C6 (amended): the ingestion path always stamps the current server instant:
`processDeviceData` never forwards a timestamp to `formatData`'s override
parameter and never reads the payload's `timestamp` field, so the normalized
reading's timestamp equals the server clock regardless of what the caller
sent. -/
theorem ingestion_always_stamps_server_now (env : Env) (data : Payload)
    (st : Caches) (id : String) (hid : data.device_id = some id) (hne : id ≠ "")
    (hfs : env.firestoreSetOk = true) :
    ((processDeviceData env data st).result.toOption.map
      fun r => r.formatted.timestamp) = some env.now := by
  rw [processDeviceData_valid env data st id hid hne hfs]
  have h2 : ((processCore env id data st).result.toOption.map
      fun r => r.formatted.timestamp) =
      ((processCore env id data st).result.toOption.map
        fun r => r.formatted).map fun f => f.timestamp := by
    cases (processCore env id data st).result.toOption <;> rfl
  rw [h2, processCore_formatted]
  rfl

/-- C6 amended-claim witness: a concrete ingestion stamps the server clock. -/
theorem ingestion_always_stamps_server_now_witness :
    ((processDeviceData demoEnv violPayload emptyCaches).result.toOption.map
      fun r => r.formatted.timestamp) = some 500000 :=
  ingestion_always_stamps_server_now demoEnv violPayload emptyCaches "dev1" rfl
    (by decide) rfl

/-- C7 counterexample: a non-numeric `line1` (the string `"abc"`) is NOT
coerced to 0 — the normalized reading stores the string verbatim; the stored
value is not a number and is not `0`. -/
theorem non_numeric_field_not_coerced :
    (formatData "dev1" badPayload none 0).line1 = .str "abc" ∧
    JsVal.isNum ((formatData "dev1" badPayload none 0).line1) = false ∧
    (formatData "dev1" badPayload none 0).line1 ≠ .num 0 := by
  decide

/-- C7 (amended): for every recognized field of the normalizer, a nullish
value (absent, `null` or `undefined`) becomes the number 0, while any other
supplied value — numeric or not — is stored verbatim without coercion;
normalization is total, so a malformed field never aborts ingestion. -/
theorem nullish_defaults_others_verbatim (id : String) (p : Payload)
    (fts : Option Int) (now : Int) :
    (formatData id p fts now).line1 =
      (if isNullish p.line1 = true then .num 0 else p.line1.getD (.num 0)) ∧
    (formatData id p fts now).line2 =
      (if isNullish p.line2 = true then .num 0 else p.line2.getD (.num 0)) ∧
    (formatData id p fts now).temperature =
      (if isNullish p.temperature = true then .num 0 else p.temperature.getD (.num 0)) ∧
    (formatData id p fts now).turbidity =
      (if isNullish p.turbidity = true then .num 0 else p.turbidity.getD (.num 0)) ∧
    (formatData id p fts now).ph =
      (if isNullish p.ph = true then .num 0 else p.ph.getD (.num 0)) ∧
    (formatData id p fts now).do_ =
      (if isNullish p.do_ = true then .num 0 else p.do_.getD (.num 0)) ∧
    (formatData id p fts now).tds =
      (if isNullish p.tds = true then .num 0 else p.tds.getD (.num 0)) ∧
    (formatData id p fts now).relay1_status =
      (if isNullish p.relay1_status = true then .num 0 else p.relay1_status.getD (.num 0)) ∧
    (formatData id p fts now).relay2_status =
      (if isNullish p.relay2_status = true then .num 0 else p.relay2_status.getD (.num 0)) :=
  ⟨coalesce_eq _ _, coalesce_eq _ _, coalesce_eq _ _, coalesce_eq _ _, coalesce_eq _ _,
    coalesce_eq _ _, coalesce_eq _ _, coalesce_eq _ _, coalesce_eq _ _⟩

/-- C8: the live read answers `"ok"` with the cached reading exactly when
`now - lastUpdated ≤ 30000`; an absent or stale entry yields `"no_data"`, not
an error; at age 29999 ms it returns the data and at 30001 ms it does not. -/
theorem live_read_iff_fresh :
    (∀ (live : Store LiveEntry) (id : String) (now : Int), id ≠ "" →
      ((getLiveHandler live id now).1 = "ok" ↔
        ∃ e, storeGet live id = some e ∧ now - e.lastUpdated ≤ 30000) ∧
      (getLiveHandler live id now = ("ok", (storeGet live id).map fun e => e.data) ∨
        getLiveHandler live id now = ("no_data", none))) ∧
    getLiveHandler live29 "dev1" 29999 = ("ok", some sampleReading) ∧
    getLiveHandler live29 "dev1" 30001 = ("no_data", none) := by
  refine ⟨?_, by decide, by decide⟩
  intro live id now hne
  unfold getLiveHandler
  rw [if_neg hne]
  cases h : storeGet live id with
  | none =>
    dsimp only
    refine ⟨⟨fun hok => absurd hok (by decide), ?_⟩, Or.inr rfl⟩
    rintro ⟨e, he, -⟩
    exact absurd he (by simp)
  | some e =>
    dsimp only
    by_cases hage : now - e.lastUpdated > 30000
    · rw [if_pos hage]
      refine ⟨⟨fun hok => absurd hok (by decide), ?_⟩, Or.inr rfl⟩
      rintro ⟨e2, he2, hle⟩
      cases he2
      omega
    · rw [if_neg hage]
      exact ⟨⟨fun _ => ⟨e, rfl, by omega⟩, fun _ => rfl⟩, Or.inl rfl⟩

/-- C8 witness: the handler run at the fresh boundary, derived from the
general law. -/
theorem live_read_iff_fresh_witness :
    getLiveHandler live29 "dev1" 29999 =
      ("ok", (storeGet live29 "dev1").map fun e => e.data) ∨
    getLiveHandler live29 "dev1" 29999 = ("no_data", none) :=
  (live_read_iff_fresh.1 live29 "dev1" 29999 (by decide)).2

/-- C9: immediately after any successful ingestion, every element of that
device's history window has `timestamp ≥ now - TWO_DAYS` (48h retention,
enforced eagerly on each insert); concretely, a reading older than the window
is no longer present after the next put. -/
theorem history_window_retention :
    (∀ (env : Env) (data : Payload) (st : Caches) (id : String)
        (r : FormattedReading),
      data.device_id = some id → id ≠ "" → env.firestoreSetOk = true →
      r ∈ (storeGet (processDeviceData env data st).caches.historyCache id).getD [] →
      env.now - TWO_DAYS ≤ r.timestamp) ∧
    oldReading ∉
      (storeGet (processDeviceData env9 payload9 st9).caches.historyCache
        "dev1").getD [] := by
  refine ⟨?_, by decide⟩
  intro env data st id r hid hne hfs hr
  rw [processDeviceData_valid env data st id hid hne hfs] at hr
  rw [processCore_history] at hr
  rw [cachePut_history_get] at hr
  simp only [Option.getD_some] at hr
  exact of_decide_eq_true (List.mem_filter.mp hr).2

/-- C9 witness: the freshly ingested reading is inside the retention bound. -/
theorem history_window_retention_witness :
    env9.now - TWO_DAYS ≤ (formatData "dev1" payload9 none env9.now).timestamp :=
  history_window_retention.1 env9 payload9 st9 "dev1"
    (formatData "dev1" payload9 none env9.now) rfl (by decide) rfl (by decide)

/-- C10: the new-alert fan-out attempts one push per recipient with a token,
in order, and a failed send (e.g. an invalid token) never prevents the
remaining attempts; the reported `alertSent` is true exactly when at least
one send succeeded.  Concretely, with a bad first token the second recipient
is still attempted and the dispatch reports success; and inside
`processDeviceData` the attempts on a new alert are exactly those of
`sendAlerts`. -/
theorem dispatch_attempts_all_reports_any_success :
    (∀ (users : List (String × UserRecord)) (sendOk : String → Bool),
      (sendAlerts users sendOk).attempted =
        users.filterMap (fun d => d.2.fcmToken) ∧
      (sendAlerts users sendOk).succeeded =
        (users.filterMap (fun d => d.2.fcmToken)).filter sendOk ∧
      ((sendAlerts users sendOk).alertSent = true ↔
        ∃ t ∈ users.filterMap (fun d => d.2.fcmToken), sendOk t = true)) ∧
    (sendAlerts mixedUsers mixedSendOk).attempted = ["tok-bad", "tok-good"] ∧
    (sendAlerts mixedUsers mixedSendOk).alertSent = true ∧
    (∀ (env : Env) (data : Payload) (st : Caches) (id : String) (ds : DeviceSettings),
      data.device_id = some id → id ≠ "" → env.firestoreSetOk = true →
      storeGet st.userSettingsCache id = some ds →
      ((storeGet st.alertStateCache id).getD ⟨false, none⟩).active = false →
      evalAlertMsg (formatData id data none env.now) ds ≠ "" →
      (processDeviceData env data st).events.pushAttempts =
        (sendAlerts env.users env.sendOk).attempted) := by
  refine ⟨?_, by decide, by decide, ?_⟩
  · intro users sendOk
    have h3 : (sendAlerts users sendOk).alertSent =
        (users.filterMap (fun d => d.2.fcmToken)).any sendOk := by
      unfold sendAlerts
      rw [foldl_sendStep]
      simp
    refine ⟨?_, ?_, ?_⟩
    · unfold sendAlerts
      rw [foldl_sendStep]
      simp
    · unfold sendAlerts
      rw [foldl_sendStep]
      simp
    · rw [h3]
      simp only [List.any_eq_true]
  · intro env data st id ds hid hne hfs hset hinact hviol
    exact (newAlert_fires env data st id ds hid hne hfs hset hinact hviol).2.1

/-- C10 witness: a new alert for `dev1` with a bad first token still attempts
both recipients. -/
theorem dispatch_attempts_all_reports_any_success_witness :
    (processDeviceData mixedEnv violPayload stInactive).events.pushAttempts =
      (sendAlerts mixedUsers mixedSendOk).attempted :=
  dispatch_attempts_all_reports_any_success.2.2.2 mixedEnv violPayload stInactive
    "dev1" demoSettings rfl (by decide) rfl rfl (by decide) (by decide)

end PMS
